import Mathlib

/-!
Shallow embedding of the ESP32 GPS tracker firmware
(`gps-tracking-alert.ino`) — the orchestration loop and its state
machines: GPS fix tracking and staleness detection, the first-lock and
periodic e-mail alert paths with throttling, LED status rendering, the
startup time synchronization, and the (externally implemented,
spec-modelled) bounded offline telemetry buffer.

Modelling conventions:
* `millis()` timestamps are `Nat` milliseconds.  On the device they are
  32-bit unsigned values; none of the verified properties involve the
  ~49-day wrap, so plain `Nat` is used.
* The TinyGPS++ decoder is an external collaborator.  Each byte read
  from the GPS serial port is abstracted by the decoder outcomes the
  sketch observes for it: whether `gps.encode(c)` completed a frame,
  whether `gps.location.isValid()`, and the decoded coordinates
  (scaled to integer micro-degrees; the claims never do arithmetic on
  them).
* Serial prints, the SMTP/HTML/geocoding payload construction and the
  `currentLocationName` string they feed are side effects irrelevant to
  every claim and are omitted; `sendLocationEmail` is modelled by
  whether the call passes its guard and proceeds to the send step.
* `WiFi.status()` and `millis()` are environment oracles, supplied per
  loop iteration through `LoopEnv`.
-/

/-- LED states, mirroring the `LEDState` enum of the sketch. -/
inductive LEDState where
  | LED_OFF
  | LED_ON
  | LED_BLINK_SLOW
  | LED_BLINK_FAST
deriving DecidableEq

/-- The last level written to each of the three LED output pins
(GPIO2 = WiFi, GPIO4 = GPS, GPIO5 = system); `true` = HIGH. -/
structure PinState where
  wifi : Bool
  gps : Bool
  system : Bool
deriving DecidableEq

/-- One byte read from the GPS serial port, abstracted by the TinyGPS++
decoder outcomes the sketch branches on: `frameComplete` is the return
value of `gps.encode(c)`, `locValid` is `gps.location.isValid()` after
that call, and `lat`/`lng` are the decoded coordinates in
micro-degrees. -/
structure GpsByte where
  frameComplete : Bool
  locValid : Bool
  lat : Int
  lng : Int
deriving DecidableEq

/-- The sketch's global mutable state (the LED state variables, the GPS
data storage, the alert throttle, and the `static` local `lastGPSData`
of `updateGPSData`).  `currentLocationName` is omitted: it is written
only inside the e-mail payload construction, which is not modelled. -/
structure TrackerState where
  wifiLEDState : LEDState
  gpsLEDState : LEDState
  systemLEDState : LEDState
  lastLEDUpdate : Nat
  ledBlinkState : Bool
  currentLatitude : Int
  currentLongitude : Int
  gpsDataValid : Bool
  firstGPSLock : Bool
  lastLocationSend : Nat
  lastGPSData : Nat
  pins : PinState
deriving DecidableEq

def LED_BLINK_INTERVAL : Nat := 500

def LED_FAST_BLINK_INTERVAL : Nat := 200

def LOCATION_SEND_INTERVAL : Nat := 300000

def offlineBufferLimit : Nat := 50

/-- Outcome of a `sendLocationEmail()` call: `attempted` means the call
passed the WiFi/GPS guard at the top of the function and proceeded to
the send step; `aborted` means it returned at that guard without
sending anything. -/
inductive EmailOutcome where
  | attempted
  | aborted
deriving DecidableEq

/-- Which code path invoked `sendLocationEmail()`. -/
inductive SendSource where
  | firstLock
  | periodic
deriving DecidableEq

/-- Record of one `sendLocationEmail()` invocation. -/
structure SendCall where
  source : SendSource
  outcome : EmailOutcome
deriving DecidableEq

/-- `controlLED`: the level written to a pin for a given LED state, the
shared slow-blink toggle, and the current `millis()` value. -/
def controlLED (state : LEDState) (blink : Bool) (now : Nat) : Bool :=
  match state with
  | .LED_OFF => false
  | .LED_ON => true
  | .LED_BLINK_SLOW => blink
  | .LED_BLINK_FAST =>
      decide (now % (LED_FAST_BLINK_INTERVAL * 2) < LED_FAST_BLINK_INTERVAL)

/-- `updateLEDs`: advance the shared slow-blink toggle when 500 ms have
elapsed, then write all three pins through `controlLED`. -/
def updateLEDs (s : TrackerState) (now : Nat) : TrackerState :=
  let toggle : Bool := decide (LED_BLINK_INTERVAL ≤ now - s.lastLEDUpdate)
  let blink := if toggle then !s.ledBlinkState else s.ledBlinkState
  let lastUpd := if toggle then now else s.lastLEDUpdate
  { s with
    ledBlinkState := blink
    lastLEDUpdate := lastUpd
    pins :=
      { wifi := controlLED s.wifiLEDState blink now
        gps := controlLED s.gpsLEDState blink now
        system := controlLED s.systemLEDState blink now } }

/-- `setWiFiLED` (the serial print is omitted). -/
def setWiFiLED (s : TrackerState) (st : LEDState) : TrackerState :=
  { s with wifiLEDState := st }

/-- `setGPSLED` (the serial print is omitted). -/
def setGPSLED (s : TrackerState) (st : LEDState) : TrackerState :=
  { s with gpsLEDState := st }

/-- `setSystemLED` (the serial print is omitted). -/
def setSystemLED (s : TrackerState) (st : LEDState) : TrackerState :=
  { s with systemLEDState := st }

/-- `sendLocationEmail()`: the function returns immediately when
`WiFi.status() != WL_CONNECTED || !gpsDataValid`; otherwise it builds
and sends the message (the payload construction and the SMTP result,
which the caller ignores, are not modelled). -/
def sendLocationEmail (wifiConnected : Bool) (gpsDataValid : Bool) : EmailOutcome :=
  if wifiConnected && gpsDataValid then .attempted else .aborted

/-- `connectToWiFi()`: sets the WiFi LED to slow blink, polls the link
for up to 20 s calling `updateLEDs` each 500 ms round (the `millis()`
values of those rounds are supplied by `waitTimes`), then sets the WiFi
LED to ON on success or FAST blink on failure (`connected` is the final
`WiFi.status()` outcome of the attempt). -/
def connectToWiFi (s : TrackerState) (waitTimes : List Nat) (connected : Bool) :
    TrackerState :=
  let s1 := waitTimes.foldl updateLEDs (setWiFiLED s .LED_BLINK_SLOW)
  if connected then setWiFiLED s1 .LED_ON else setWiFiLED s1 .LED_BLINK_FAST

/-- One iteration of the `while (gpsSerial.available() > 0)` body of
`updateGPSData`: feed the byte to the decoder; on a completed frame
with a valid location store the coordinates, set `gpsDataValid`, put
the GPS LED on, and if this is the first lock clear `firstGPSLock` and
call `sendLocationEmail()`; on a completed frame without a valid
location set the GPS LED to slow blink. -/
def encodeStep (wifi : Bool) (acc : TrackerState × List SendCall) (b : GpsByte) :
    TrackerState × List SendCall :=
  let s := acc.1
  let calls := acc.2
  if b.frameComplete then
    if b.locValid then
      let s1 := setGPSLED
        { s with currentLatitude := b.lat, currentLongitude := b.lng,
                 gpsDataValid := true } .LED_ON
      if s1.firstGPSLock then
        ({ s1 with firstGPSLock := false },
          calls ++ [⟨SendSource.firstLock, sendLocationEmail wifi s1.gpsDataValid⟩])
      else (s1, calls)
    else (setGPSLED s .LED_BLINK_SLOW, calls)
  else (s, calls)

/-- `updateGPSData()`: drain the available GPS bytes through the
decoder, then the staleness check — if any byte was read refresh
`lastGPSData`, otherwise if more than 5000 ms have passed since the
last byte force the GPS LED off. -/
def updateGPSData (s : TrackerState) (bytes : List GpsByte) (now : Nat)
    (wifi : Bool) : TrackerState × List SendCall :=
  let r := bytes.foldl (encodeStep wifi) (s, [])
  if bytes.isEmpty then
    if 5000 < now - r.1.lastGPSData then (setGPSLED r.1 .LED_OFF, r.2) else r
  else ({ r.1 with lastGPSData := now }, r.2)

/-- Environment oracle for one `loop()` iteration: the `WiFi.status()`
sample of the reconnect check (`wifiStart`), the reconnect attempt's
`updateLEDs` round times and final outcome (used only when a reconnect
happens), the GPS bytes available this tick, the `WiFi.status()` sample
seen by `sendLocationEmail` guards this tick (`wifiSend`), the
`geo.loop()` status code, `millis()` at the GPS/alert checks (`now`)
and `millis()` when the periodic `sendLocationEmail` returns
(`sendEnd`). -/
structure LoopEnv where
  wifiStart : Bool
  reconnectWait : List Nat
  reconnectResult : Bool
  gpsBytes : List GpsByte
  wifiSend : Bool
  geoStatus : Nat
  now : Nat
  sendEnd : Nat
deriving DecidableEq

/-- One iteration of `loop()`: (1) reconnect when the link is down;
(2) `updateGPSData()`; (3) `geo.loop()` / `handleGeoLinkerStatus()`,
which only print and change none of the tracked state; (4) the periodic
e-mail check `millis() - lastLocationSend > LOCATION_SEND_INTERVAL &&
gpsDataValid`, which calls `sendLocationEmail()` and then stamps
`lastLocationSend`; then `delay(100)`.  Note: `loop()` contains no
`updateLEDs()` call, so no pin is written in an iteration that does not
enter `connectToWiFi`. -/
def loopTick (s : TrackerState) (e : LoopEnv) : TrackerState × List SendCall :=
  let s1 := if e.wifiStart then s
    else connectToWiFi s e.reconnectWait e.reconnectResult
  let r := updateGPSData s1 e.gpsBytes e.now e.wifiSend
  if LOCATION_SEND_INTERVAL < e.now - r.1.lastLocationSend ∧ r.1.gpsDataValid = true then
    ({ r.1 with lastLocationSend := e.sendEnd },
      r.2 ++ [⟨SendSource.periodic, sendLocationEmail e.wifiSend r.1.gpsDataValid⟩])
  else r

/-- States reached by running `loop()` over a list of per-iteration
environments. -/
def run (s : TrackerState) (es : List LoopEnv) : TrackerState :=
  es.foldl (fun st e => (loopTick st e).1) s

/-- All `sendLocationEmail()` invocations over a run, in order. -/
def runCalls (s : TrackerState) (es : List LoopEnv) : List SendCall :=
  match es with
  | [] => []
  | e :: rest => (loopTick s e).2 ++ runCalls (loopTick s e).1 rest

/-- Whether some available byte completes a frame with a valid
location (the event that sets `gpsDataValid`). -/
def hasValidDecode (bytes : List GpsByte) : Bool :=
  bytes.any fun b => b.frameComplete && b.locValid

/-- Number of first-lock-path `sendLocationEmail()` invocations in a
call log. -/
def firstLockCount (calls : List SendCall) : Nat :=
  (calls.filter fun c => decide (c.source = SendSource.firstLock)).length

/-- Whether a call log contains a periodic-path invocation that reached
the send step. -/
def periodicAttempted (calls : List SendCall) : Bool :=
  calls.any fun c =>
    decide (c.source = SendSource.periodic) && decide (c.outcome = EmailOutcome.attempted)

/-- Global state as initialized by the variable initializers
(`gpsDataValid = false`, `firstGPSLock = true`, `lastLocationSend = 0`,
all LED states `LED_OFF`) with all pins LOW. -/
def initState : TrackerState :=
  { wifiLEDState := .LED_OFF
    gpsLEDState := .LED_OFF
    systemLEDState := .LED_OFF
    lastLEDUpdate := 0
    ledBlinkState := false
    currentLatitude := 0
    currentLongitude := 0
    gpsDataValid := false
    firstGPSLock := true
    lastLocationSend := 0
    lastGPSData := 0
    pins := ⟨false, false, false⟩ }

/-- The state the `loop()` iteration has after step 1 (reconnect when
the link is down). -/
def preTick (s : TrackerState) (e : LoopEnv) : TrackerState :=
  if e.wifiStart then s else connectToWiFi s e.reconnectWait e.reconnectResult

/-- The polling loop of `syncTime()`: `time(nullptr)` is the clock
oracle `timeAt` indexed by `millis()`; each round delays 500 ms and
re-samples, until the clock passes the sanity threshold `8 * 3600 * 2`
or 10000 ms have elapsed.  The `fuel` argument only bounds recursion:
with fuel 21 it can never run out before the `elapsed < 10000`
condition exits the loop (at most 20 rounds pass that test). -/
def syncLoop (timeAt : Nat → Nat) (start : Nat) : Nat → Nat → Nat → Nat
  | 0, _, nowv => nowv
  | fuel + 1, elapsed, nowv =>
    if nowv < 8 * 3600 * 2 ∧ elapsed < 10000 then
      syncLoop timeAt start fuel (elapsed + 500) (timeAt (start + elapsed + 500))
    else nowv

/-- `syncTime()`: configure NTP (external), poll the wall clock for up
to 10 s, and report whether it passed the sanity threshold. -/
def syncTime (timeAt : Nat → Nat) (start : Nat) : Bool :=
  decide (8 * 3600 * 2 ≤ syncLoop timeAt start 21 0 (timeAt start))

/-- Stand-in for the `localtime_r`/`strftime` rendering of an
above-threshold epoch value (external C library calls); the claims
depend only on the under-threshold branch of `getCurrentTimestamp`,
which returns the degraded label instead. -/
def formatTimestamp (now : Nat) : String := toString now ++ " IST"

/-- `getCurrentTimestamp()`: the degraded label when the clock is still
below the sanity threshold, the formatted time otherwise. -/
def getCurrentTimestamp (now : Nat) : String :=
  if now < 8 * 3600 * 2 then "Time not synchronized" else formatTimestamp now

/-- `setup()` (the state-relevant part): LED test leaves all pins LOW,
system/GPS/WiFi LEDs are set to slow blink, `connectToWiFi()` runs,
then the `syncTime()` branch sets the system LED to OFF on success or
slow blink (warning) on failure, and `initializeGeoLinker()` — which
otherwise only configures the external GeoLinker object — sets the
system LED to slow blink when the link is up but GeoLinker's own WiFi
connect fails.  Serial/GPS-serial initialization only touch
peripherals. -/
def setup (s : TrackerState) (connectWait : List Nat) (wifiResult : Bool)
    (geoWiFiOk : Bool) (timeAt : Nat → Nat) (syncStart : Nat) : TrackerState :=
  let s0 : TrackerState := { s with pins := ⟨false, false, false⟩ }
  let s1 := setSystemLED s0 .LED_BLINK_SLOW
  let s2 := setGPSLED s1 .LED_BLINK_SLOW
  let s3 := setWiFiLED s2 .LED_BLINK_SLOW
  let s4 := connectToWiFi s3 connectWait wifiResult
  let s5 := if syncTime timeAt syncStart then setSystemLED s4 .LED_OFF
    else setSystemLED s4 .LED_BLINK_SLOW
  if wifiResult && !geoWiFiOk then setSystemLED s5 .LED_BLINK_SLOW else s5

/-- Modelled from the spec: the offline telemetry buffer is implemented
inside the external GeoLinker library and is not part of this
repository; the sketch only configures it, in `initializeGeoLinker`,
via `geo.enableOfflineStorage(true)` and
`geo.setOfflineBufferLimit(offlineBufferLimit)` with
`offlineBufferLimit = 50`.  Per the spec it is a bounded FIFO of
capacity `offlineBufferLimit` holding unsent entries (represented here
by their sequence numbers); a push when full evicts exactly the oldest
unsent entry to admit the newest. -/
def offlinePush (buf : List Nat) (entry : Nat) : List Nat :=
  if buf.length < offlineBufferLimit then buf ++ [entry] else buf.drop 1 ++ [entry]

/-- A sequence of pushes attempted while the link is down. -/
def offlinePushAll (buf : List Nat) (entries : List Nat) : List Nat :=
  entries.foldl offlinePush buf

/-- A post-first-lock state holding a valid fix: `gpsDataValid` set,
`firstGPSLock` cleared, throttle timestamp still 0. -/
def periodicState : TrackerState :=
  { initState with gpsDataValid := true, firstGPSLock := false }

/-- A stale-GPS state: valid fix recorded, GPS LED on, first lock done,
last GPS byte seen at `millis() = 0`. -/
def staleState : TrackerState :=
  { initState with gpsDataValid := true, gpsLEDState := .LED_ON, firstGPSLock := false }

/-- A post-first-lock state whose GPS LED is in fast blink. -/
def renderState : TrackerState :=
  { initState with gpsLEDState := .LED_BLINK_FAST, firstGPSLock := false }

/-- A quiet iteration with the link up at `millis() = 100`. -/
def renderEnv : LoopEnv :=
  { wifiStart := true, reconnectWait := [], reconnectResult := true,
    gpsBytes := [], wifiSend := true, geoStatus := 0, now := 100, sendEnd := 100 }

/-- An iteration at exactly `millis() = LOCATION_SEND_INTERVAL` with
the link up and no GPS bytes. -/
def boundaryEnv : LoopEnv :=
  { wifiStart := true, reconnectWait := [], reconnectResult := true,
    gpsBytes := [], wifiSend := true, geoStatus := 0,
    now := 300000, sendEnd := 300000 }

/-- An iteration one past the interval, link up. -/
def fireEnv : LoopEnv :=
  { wifiStart := true, reconnectWait := [], reconnectResult := true,
    gpsBytes := [], wifiSend := true, geoStatus := 0,
    now := 300001, sendEnd := 300001 }

/-- An iteration one past the interval in which `WiFi.status()` reports
the link down at the `sendLocationEmail` guard. -/
def abortEnv : LoopEnv :=
  { wifiStart := true, reconnectWait := [], reconnectResult := true,
    gpsBytes := [], wifiSend := false, geoStatus := 0,
    now := 300001, sendEnd := 300002 }

/-- Effect of draining a byte list through the decoder loop: most
fields are untouched, `gpsDataValid` becomes true exactly when some
byte completes a valid-location frame, `firstGPSLock` is cleared by the
same event, and the first-lock path fires `sendLocationEmail` exactly
once when `firstGPSLock` was set and such a byte occurs. -/
lemma encode_fold_spec (w : Bool) (bytes : List GpsByte) :
    ∀ (s : TrackerState) (cs : List SendCall),
    ((bytes.foldl (encodeStep w) (s, cs)).1.lastLocationSend = s.lastLocationSend) ∧
    ((bytes.foldl (encodeStep w) (s, cs)).1.lastGPSData = s.lastGPSData) ∧
    ((bytes.foldl (encodeStep w) (s, cs)).1.pins = s.pins) ∧
    ((bytes.foldl (encodeStep w) (s, cs)).1.wifiLEDState = s.wifiLEDState) ∧
    ((bytes.foldl (encodeStep w) (s, cs)).1.systemLEDState = s.systemLEDState) ∧
    ((bytes.foldl (encodeStep w) (s, cs)).1.lastLEDUpdate = s.lastLEDUpdate) ∧
    ((bytes.foldl (encodeStep w) (s, cs)).1.ledBlinkState = s.ledBlinkState) ∧
    ((bytes.foldl (encodeStep w) (s, cs)).1.gpsDataValid
        = (s.gpsDataValid || hasValidDecode bytes)) ∧
    ((bytes.foldl (encodeStep w) (s, cs)).1.firstGPSLock
        = (s.firstGPSLock && !hasValidDecode bytes)) ∧
    ((bytes.foldl (encodeStep w) (s, cs)).2
        = cs ++ (if s.firstGPSLock && hasValidDecode bytes
            then [⟨SendSource.firstLock, sendLocationEmail w true⟩] else [])) := by
  induction bytes with
  | nil =>
    intro s cs
    simp [hasValidDecode]
  | cons b rest ih =>
    intro s cs
    rcases b with ⟨fc, lv, la, ln⟩
    cases fc with
    | false =>
      simpa [encodeStep, hasValidDecode] using ih s cs
    | true =>
      cases lv with
      | false =>
        have h := ih (setGPSLED s .LED_BLINK_SLOW) cs
        simpa [encodeStep, setGPSLED, hasValidDecode] using h
      | true =>
        by_cases hf : s.firstGPSLock = true
        · have h := ih { s with currentLatitude := la, currentLongitude := ln, gpsDataValid := true, gpsLEDState := .LED_ON, firstGPSLock := false } (cs ++ [⟨SendSource.firstLock, sendLocationEmail w true⟩])
          simpa [encodeStep, setGPSLED, hasValidDecode, hf] using h
        · have hf2 : s.firstGPSLock = false := by
            cases hfg : s.firstGPSLock
            · rfl
            · exact absurd hfg hf
          have h := ih { s with currentLatitude := la, currentLongitude := ln, gpsDataValid := true, gpsLEDState := .LED_ON } cs
          simpa [encodeStep, setGPSLED, hasValidDecode, hf2] using h

/-- Effect of one `updateGPSData()` call on the fields the alert logic
reads: validity is monotone (set exactly by a valid decode),
`firstGPSLock` is cleared by the same event, the throttle timestamp and
the pins are untouched, and the first-lock e-mail fires exactly when
`firstGPSLock` was set and a valid decode arrives. -/
lemma updateGPSData_spec (s : TrackerState) (bytes : List GpsByte) (now : Nat)
    (w : Bool) :
    ((updateGPSData s bytes now w).1.gpsDataValid
        = (s.gpsDataValid || hasValidDecode bytes)) ∧
    ((updateGPSData s bytes now w).1.firstGPSLock
        = (s.firstGPSLock && !hasValidDecode bytes)) ∧
    ((updateGPSData s bytes now w).1.lastLocationSend = s.lastLocationSend) ∧
    ((updateGPSData s bytes now w).1.pins = s.pins) ∧
    ((updateGPSData s bytes now w).2
        = (if s.firstGPSLock && hasValidDecode bytes
            then [⟨SendSource.firstLock, sendLocationEmail w true⟩] else [])) := by
  have h := encode_fold_spec w bytes s []
  obtain ⟨h1, h2, h3, h4, h5, h6, h7, h8, h9, h10⟩ := h
  cases hb : bytes.isEmpty
  · simp only [updateGPSData, hb, Bool.false_eq_true, if_false]
    exact ⟨h8, h9, h1, h3, by simpa using h10⟩
  · have hnil : bytes = [] := by
      cases bytes
      · rfl
      · simp at hb
    subst hnil
    simp only [updateGPSData, List.foldl_nil, List.isEmpty_nil, if_true]
    split_ifs <;> simp_all [setGPSLED, hasValidDecode]

/-- Folding `updateLEDs` over any sequence of times touches only the
blink clock and the pins. -/
lemma foldl_updateLEDs_preserves (wt : List Nat) :
    ∀ (s : TrackerState),
    ((wt.foldl updateLEDs s).gpsDataValid = s.gpsDataValid) ∧
    ((wt.foldl updateLEDs s).firstGPSLock = s.firstGPSLock) ∧
    ((wt.foldl updateLEDs s).lastLocationSend = s.lastLocationSend) ∧
    ((wt.foldl updateLEDs s).lastGPSData = s.lastGPSData) ∧
    ((wt.foldl updateLEDs s).gpsLEDState = s.gpsLEDState) := by
  induction wt with
  | nil => intro s; simp
  | cons t rest ih =>
    intro s
    have h := ih (updateLEDs s t)
    simpa [updateLEDs] using h

/-- `connectToWiFi()` touches only the WiFi LED state and the blink
clock / pins; the GPS and alert state are untouched. -/
lemma connectToWiFi_preserves (s : TrackerState) (wt : List Nat) (r : Bool) :
    ((connectToWiFi s wt r).gpsDataValid = s.gpsDataValid) ∧
    ((connectToWiFi s wt r).firstGPSLock = s.firstGPSLock) ∧
    ((connectToWiFi s wt r).lastLocationSend = s.lastLocationSend) ∧
    ((connectToWiFi s wt r).lastGPSData = s.lastGPSData) ∧
    ((connectToWiFi s wt r).gpsLEDState = s.gpsLEDState) := by
  have h := foldl_updateLEDs_preserves wt (setWiFiLED s .LED_BLINK_SLOW)
  cases r <;> simpa [connectToWiFi, setWiFiLED] using h

lemma preTick_preserves (s : TrackerState) (e : LoopEnv) :
    ((preTick s e).gpsDataValid = s.gpsDataValid) ∧
    ((preTick s e).firstGPSLock = s.firstGPSLock) ∧
    ((preTick s e).lastLocationSend = s.lastLocationSend) ∧
    ((preTick s e).lastGPSData = s.lastGPSData) ∧
    ((preTick s e).gpsLEDState = s.gpsLEDState) := by
  cases hw : e.wifiStart
  · simpa [preTick, hw] using connectToWiFi_preserves s e.reconnectWait e.reconnectResult
  · simp [preTick, hw]

/-- Characterization of one `loop()` iteration on the alert state: the
fields read and written by the first-lock and periodic e-mail paths,
and the exact list of `sendLocationEmail()` invocations the iteration
makes. -/
lemma loopTick_spec (s : TrackerState) (e : LoopEnv) :
    ((loopTick s e).1.gpsDataValid = (s.gpsDataValid || hasValidDecode e.gpsBytes)) ∧
    ((loopTick s e).1.firstGPSLock = (s.firstGPSLock && !hasValidDecode e.gpsBytes)) ∧
    ((loopTick s e).1.lastLocationSend
        = (if LOCATION_SEND_INTERVAL < e.now - s.lastLocationSend ∧
              (s.gpsDataValid || hasValidDecode e.gpsBytes) = true
            then e.sendEnd else s.lastLocationSend)) ∧
    ((loopTick s e).2
        = ((if s.firstGPSLock && hasValidDecode e.gpsBytes
              then [⟨SendSource.firstLock, sendLocationEmail e.wifiSend true⟩] else [])
            ++ (if LOCATION_SEND_INTERVAL < e.now - s.lastLocationSend ∧
                  (s.gpsDataValid || hasValidDecode e.gpsBytes) = true
                then [⟨SendSource.periodic, sendLocationEmail e.wifiSend true⟩] else []))) := by
  obtain ⟨p1, p2, p3, p4, p5⟩ := preTick_preserves s e
  obtain ⟨g1, g2, g3, g4, g5⟩ :=
    updateGPSData_spec (preTick s e) e.gpsBytes e.now e.wifiSend
  have hloop : loopTick s e =
      (let r := updateGPSData (preTick s e) e.gpsBytes e.now e.wifiSend
       if LOCATION_SEND_INTERVAL < e.now - r.1.lastLocationSend ∧ r.1.gpsDataValid = true then
         ({ r.1 with lastLocationSend := e.sendEnd },
           r.2 ++ [⟨SendSource.periodic, sendLocationEmail e.wifiSend r.1.gpsDataValid⟩])
       else r) := by
    simp only [loopTick, preTick]
  rw [hloop]
  simp only [g1, g3, p1, p3]
  by_cases hcond : LOCATION_SEND_INTERVAL < e.now - s.lastLocationSend ∧
      (s.gpsDataValid || hasValidDecode e.gpsBytes) = true
  · simp only [if_pos hcond]
    by_cases hfl : (s.firstGPSLock && hasValidDecode e.gpsBytes) = true <;>
      simp [hcond.2, hfl, g2, g5, p2]
  · simp only [if_neg hcond]
    by_cases hfl : (s.firstGPSLock && hasValidDecode e.gpsBytes) = true <;>
      simp [hfl, g1, g2, g3, g5, p1, p2, p3]

/-- In an iteration whose initial `WiFi.status()` check sees the link
up, `loop()` performs no `digitalWrite` at all: `updateGPSData`, the
GeoLinker step and the e-mail paths only mutate LED *state* variables,
and `loop()` never calls `updateLEDs`/`controlLED`. -/
lemma loopTick_pins_of_wifiStart (s : TrackerState) (e : LoopEnv)
    (h : e.wifiStart = true) : (loopTick s e).1.pins = s.pins := by
  obtain ⟨g1, g2, g3, g4, g5⟩ := updateGPSData_spec s e.gpsBytes e.now e.wifiSend
  have hpre : preTick s e = s := by simp [preTick, h]
  have hloop : loopTick s e =
      (let r := updateGPSData (preTick s e) e.gpsBytes e.now e.wifiSend
       if LOCATION_SEND_INTERVAL < e.now - r.1.lastLocationSend ∧ r.1.gpsDataValid = true then
         ({ r.1 with lastLocationSend := e.sendEnd },
           r.2 ++ [⟨SendSource.periodic, sendLocationEmail e.wifiSend r.1.gpsDataValid⟩])
       else r) := by
    simp only [loopTick, preTick]
  rw [hloop, hpre]
  simp only [g1, g3]
  by_cases hc : LOCATION_SEND_INTERVAL < e.now - s.lastLocationSend ∧
      (s.gpsDataValid || hasValidDecode e.gpsBytes) = true
  · simp only [if_pos hc]
    simpa using g4
  · simp only [if_neg hc]
    exact g4

/-- Validity over a whole run: `gpsDataValid` is the disjunction of its
initial value with "some tick decoded a valid location" — in
particular it is never reset to `false`. -/
lemma run_gpsDataValid (es : List LoopEnv) :
    ∀ (s : TrackerState),
    (run s es).gpsDataValid
      = (s.gpsDataValid || es.any fun e => hasValidDecode e.gpsBytes) := by
  induction es with
  | nil => intro s; simp [run]
  | cons e rest ih =>
    intro s
    obtain ⟨t1, t2, t3, t4⟩ := loopTick_spec s e
    have hstep : run s (e :: rest) = run (loopTick s e).1 rest := by
      simp [run]
    rw [hstep, ih (loopTick s e).1, t1]
    simp [Bool.or_assoc]

/-- `firstGPSLock` over a whole run: cleared exactly by the first valid
decode, and never set again. -/
lemma run_firstGPSLock (es : List LoopEnv) :
    ∀ (s : TrackerState),
    (run s es).firstGPSLock
      = (s.firstGPSLock && !(es.any fun e => hasValidDecode e.gpsBytes)) := by
  induction es with
  | nil => intro s; simp [run]
  | cons e rest ih =>
    intro s
    obtain ⟨t1, t2, t3, t4⟩ := loopTick_spec s e
    have hstep : run s (e :: rest) = run (loopTick s e).1 rest := by
      simp [run]
    rw [hstep, ih (loopTick s e).1, t2]
    simp [Bool.not_or, Bool.and_assoc]

/-- The first-lock count of the calls of a single tick. -/
lemma loopTick_firstLockCount (s : TrackerState) (e : LoopEnv) :
    firstLockCount (loopTick s e).2
      = (if (s.firstGPSLock && hasValidDecode e.gpsBytes) = true then 1 else 0) := by
  obtain ⟨t1, t2, t3, t4⟩ := loopTick_spec s e
  rw [firstLockCount, t4, List.filter_append, List.length_append]
  have hA : (((if (s.firstGPSLock && hasValidDecode e.gpsBytes) = true
        then [(⟨SendSource.firstLock, sendLocationEmail e.wifiSend true⟩ : SendCall)]
        else []).filter fun c => decide (c.source = SendSource.firstLock)).length
      = if (s.firstGPSLock && hasValidDecode e.gpsBytes) = true then 1 else 0) := by
    split_ifs <;> simp
  have hB : (((if LOCATION_SEND_INTERVAL < e.now - s.lastLocationSend ∧
          (s.gpsDataValid || hasValidDecode e.gpsBytes) = true
        then [(⟨SendSource.periodic, sendLocationEmail e.wifiSend true⟩ : SendCall)]
        else []).filter fun c => decide (c.source = SendSource.firstLock)).length
      = 0) := by
    split_ifs <;> simp
  rw [hA, hB, Nat.add_zero]

lemma firstLockCount_append (a b : List SendCall) :
    firstLockCount (a ++ b) = firstLockCount a + firstLockCount b := by
  simp [firstLockCount]

/-- First-lock e-mail count over a whole run: one when the run starts
with `firstGPSLock` set and some tick decodes a valid location, zero
otherwise. -/
lemma runCalls_firstLockCount (es : List LoopEnv) :
    ∀ (s : TrackerState),
    firstLockCount (runCalls s es)
      = (if (s.firstGPSLock && es.any fun e => hasValidDecode e.gpsBytes) = true
          then 1 else 0) := by
  induction es with
  | nil => intro s; simp [runCalls, firstLockCount]
  | cons e rest ih =>
    intro s
    obtain ⟨t1, t2, t3, t4⟩ := loopTick_spec s e
    rw [runCalls, firstLockCount_append, loopTick_firstLockCount,
      ih (loopTick s e).1, t2]
    cases hfg : s.firstGPSLock <;> cases hv : hasValidDecode e.gpsBytes <;>
      cases ha : (rest.any fun x => hasValidDecode x.gpsBytes) <;>
        simp [hfg, hv, ha]

/-- If the wall clock stays below the sanity threshold, the sync
polling loop returns an under-threshold value. -/
lemma syncLoop_lt (timeAt : Nat → Nat)
    (hlt : ∀ t, timeAt t < 8 * 3600 * 2) (start : Nat) :
    ∀ (fuel elapsed t0 : Nat),
      syncLoop timeAt start fuel elapsed (timeAt t0) < 8 * 3600 * 2 := by
  intro fuel
  induction fuel with
  | zero => intro elapsed t0; simpa [syncLoop] using hlt t0
  | succ n ih =>
    intro elapsed t0
    rw [syncLoop]
    split_ifs with h
    · exact ih (elapsed + 500) (start + elapsed + 500)
    · exact hlt t0

/-- Closed form for a burst of pushes: the buffer keeps exactly the
most recent `offlineBufferLimit` entries of `buf ++ entries`. -/
lemma offlinePushAll_drop (entries : List Nat) :
    ∀ (buf : List Nat), buf.length ≤ offlineBufferLimit →
    offlinePushAll buf entries
      = (buf ++ entries).drop (buf.length + entries.length - offlineBufferLimit) := by
  induction entries with
  | nil =>
    intro buf hb
    have hz : buf.length + ([] : List Nat).length - offlineBufferLimit = 0 := by
      simp
      omega
    rw [hz]
    simp [offlinePushAll]
  | cons x rest ih =>
    intro buf hb
    have hstep : offlinePushAll buf (x :: rest) = offlinePushAll (offlinePush buf x) rest := by
      simp [offlinePushAll]
    rw [hstep]
    by_cases hlen : buf.length < offlineBufferLimit
    · rw [show offlinePush buf x = buf ++ [x] from by simp [offlinePush, hlen]]
      rw [ih (buf ++ [x]) (by simp only [List.length_append, List.length_cons, List.length_nil]; omega)]
      have h1 : (buf ++ [x]) ++ rest = buf ++ x :: rest := by simp
      have h2 : (buf ++ [x]).length + rest.length - offlineBufferLimit
          = buf.length + (x :: rest).length - offlineBufferLimit := by
        simp only [List.length_append, List.length_cons, List.length_nil]
        omega
      rw [h1, h2]
    · have h50 : buf.length = offlineBufferLimit :=
        Nat.le_antisymm hb (Nat.le_of_not_lt hlen)
      rw [show offlinePush buf x = buf.drop 1 ++ [x] from by simp [offlinePush, hlen]]
      have hlen2 : (buf.drop 1 ++ [x]).length ≤ offlineBufferLimit := by
        have hL : offlineBufferLimit = 50 := rfl
        simp
        omega
      rw [ih _ hlen2]
      obtain ⟨b, t, rfl⟩ : ∃ b t, buf = b :: t := by
        cases buf with
        | nil => simp [offlineBufferLimit] at h50
        | cons b t => exact ⟨b, t, rfl⟩
      have ht : t.length + 1 = offlineBufferLimit := by simpa using h50
      have e1 : (b :: t).drop 1 = t := rfl
      rw [e1]
      have e2 : (t ++ [x]).length + rest.length - offlineBufferLimit = rest.length := by
        simp only [List.length_append, List.length_cons, List.length_nil]
        omega
      have e4 : (b :: t).length + (x :: rest).length - offlineBufferLimit
          = rest.length + 1 := by
        simp only [List.length_cons]
        omega
      rw [e2, e4]
      have e3 : ((b :: t) ++ x :: rest) = b :: (t ++ x :: rest) := rfl
      rw [e3, List.drop_succ_cons]
      have e5 : (t ++ [x]) ++ rest = t ++ x :: rest := by simp
      rw [e5]

/-- C1 counterexample: on a tick that consumes no GPS bytes more than
5000 ms after the last byte, `updateGPSData` sets the GPS LED Off but
leaves `gpsDataValid` true — the claim that the validity flag is forced
to `false` fails on the code. -/
theorem stale_tick_keeps_validity_cex :
    5000 < 6000 - staleState.lastGPSData ∧
    (updateGPSData staleState [] 6000 false).1.gpsLEDState = LEDState.LED_OFF ∧
    (updateGPSData staleState [] 6000 false).1.gpsDataValid = true := by
  decide

/-- C1 (amended): a tick that consumes no GPS bytes more than 5000 ms
after the last byte forces the GPS indicator Off — a state distinct
from the blinking "searching" state — regardless of its prior state,
while `gpsDataValid` is left unchanged. -/
theorem stale_tick_forces_indicator_off (s : TrackerState) (now : Nat) (w : Bool)
    (h : 5000 < now - s.lastGPSData) :
    (updateGPSData s [] now w).1.gpsLEDState = LEDState.LED_OFF ∧
    (updateGPSData s [] now w).1.gpsDataValid = s.gpsDataValid ∧
    LEDState.LED_OFF ≠ LEDState.LED_BLINK_SLOW := by
  refine ⟨?_, ?_, by decide⟩ <;> simp [updateGPSData, setGPSLED, h]

theorem stale_tick_forces_indicator_off_witness :
    5000 < 6000 - staleState.lastGPSData ∧
    ((updateGPSData staleState [] 6000 false).1.gpsLEDState = LEDState.LED_OFF ∧
      (updateGPSData staleState [] 6000 false).1.gpsDataValid = staleState.gpsDataValid ∧
      LEDState.LED_OFF ≠ LEDState.LED_BLINK_SLOW) :=
  ⟨by decide, stale_tick_forces_indicator_off staleState 6000 false (by decide)⟩

/-- C2 (code bug): an iteration of `loop()` whose initial WiFi check
sees the link up performs steps (1)-(4) but writes no LED pin at all —
`loop()` never calls `updateLEDs`/`controlLED`, so the three indicator
outputs are not rendered at loop cadence, contradicting the claimed
step (5) and the sketch's own documentation of blinking status LEDs. -/
theorem loop_never_renders_indicators (s : TrackerState) (e : LoopEnv)
    (h : e.wifiStart = true) : (loopTick s e).1.pins = s.pins :=
  loopTick_pins_of_wifiStart s e h

theorem loop_never_renders_indicators_witness :
    renderEnv.wifiStart = true ∧
    (loopTick renderState renderEnv).1.pins = renderState.pins :=
  ⟨rfl, loop_never_renders_indicators renderState renderEnv rfl⟩

/-- C3: over any run, the first-lock path invokes `sendLocationEmail`
exactly once — unconditionally — when `firstGPSLock` is set at the
start and some tick decodes a valid location (the first false→true
validity transition), and zero times otherwise; `firstGPSLock` is
cleared by that event and never set again, and validity is monotone,
so later validity cycles can never re-trigger the first-lock path. -/
theorem first_lock_alert_fires_exactly_once (s : TrackerState) (es : List LoopEnv) :
    (firstLockCount (runCalls s es)
        = if (s.firstGPSLock && es.any fun e => hasValidDecode e.gpsBytes) = true
            then 1 else 0) ∧
    ((run s es).firstGPSLock
        = (s.firstGPSLock && !(es.any fun e => hasValidDecode e.gpsBytes))) ∧
    ((run s es).gpsDataValid
        = (s.gpsDataValid || es.any fun e => hasValidDecode e.gpsBytes)) :=
  ⟨runCalls_firstLockCount es s, run_firstGPSLock es s, run_gpsDataValid es s⟩

/-- C4 counterexample: at `now - lastSentAt` exactly equal to the
5-minute interval, with validity and connectivity both holding and the
first lock already sent, the iteration attempts no send at all — the
code's guard is strict `>`, not the `>=` the claim states. -/
theorem periodic_boundary_no_fire_cex :
    LOCATION_SEND_INTERVAL ≤ boundaryEnv.now - periodicState.lastLocationSend ∧
    periodicState.gpsDataValid = true ∧
    boundaryEnv.wifiSend = true ∧
    periodicState.firstGPSLock = false ∧
    (loopTick periodicState boundaryEnv).2 = [] := by
  decide

/-- C4 (amended): a periodic alert attempt reaches the send step
exactly when `now - lastSentAt` is strictly greater than the 5-minute
interval AND the fix is valid AND the link is connected; at exact
equality no attempt occurs. -/
theorem periodic_send_reaches_send_step_iff (s : TrackerState) (e : LoopEnv) :
    periodicAttempted (loopTick s e).2 = true ↔
      (LOCATION_SEND_INTERVAL < e.now - s.lastLocationSend ∧
        (s.gpsDataValid || hasValidDecode e.gpsBytes) = true ∧
        e.wifiSend = true) := by
  obtain ⟨t1, t2, t3, t4⟩ := loopTick_spec s e
  rw [periodicAttempted, t4]
  by_cases hcond : LOCATION_SEND_INTERVAL < e.now - s.lastLocationSend ∧
      (s.gpsDataValid || hasValidDecode e.gpsBytes) = true
  · simp only [if_pos hcond]
    cases hw : e.wifiSend <;>
      by_cases hfl : (s.firstGPSLock && hasValidDecode e.gpsBytes) = true <;>
        simp [hfl, hw, sendLocationEmail, hcond.1, hcond.2]
  · simp only [if_neg hcond]
    by_cases hfl : (s.firstGPSLock && hasValidDecode e.gpsBytes) = true
    · simp only [if_pos hfl]
      constructor
      · intro habs
        exact absurd habs (by simp)
      · intro hrhs
        exact absurd ⟨hrhs.1, hrhs.2.1⟩ hcond
    · simp only [if_neg hfl]
      constructor
      · intro habs
        exact absurd habs (by simp)
      · intro hrhs
        exact absurd ⟨hrhs.1, hrhs.2.1⟩ hcond

theorem periodic_send_reaches_send_step_iff_witness :
    periodicAttempted (loopTick periodicState fireEnv).2 = true :=
  (periodic_send_reaches_send_step_iff periodicState fireEnv).mpr
    ⟨by decide, by decide, rfl⟩

/-- C5 counterexample: with the periodic guard holding but the link
down at the e-mail guard, `sendLocationEmail` aborts — the attempt
never reaches the send step — yet `loop()` still stamps
`lastLocationSend`, consuming the throttle window. -/
theorem throttle_consumed_without_send_cex :
    (loopTick periodicState abortEnv).2
        = [⟨SendSource.periodic, EmailOutcome.aborted⟩] ∧
    periodicState.lastLocationSend = 0 ∧
    (loopTick periodicState abortEnv).1.lastLocationSend = 300002 := by
  decide

/-- C5 (amended): `lastSentAt` (`lastLocationSend`) is stamped on
exactly the iterations whose periodic guard (elapsed strictly beyond
the 5-minute interval, and validity) passes — whether or not the
attempt reaches the send step, e.g. when the link is down — and the
first-lock attempt inside `updateGPSData`, which can reach the send
step, never updates it. -/
theorem lastSentAt_update_rule (s : TrackerState) (e : LoopEnv) :
    ((loopTick s e).1.lastLocationSend
        = (if LOCATION_SEND_INTERVAL < e.now - s.lastLocationSend ∧
              (s.gpsDataValid || hasValidDecode e.gpsBytes) = true
            then e.sendEnd else s.lastLocationSend)) ∧
    (∀ (bytes : List GpsByte) (now : Nat) (w : Bool),
      (updateGPSData s bytes now w).1.lastLocationSend = s.lastLocationSend) :=
  ⟨(loopTick_spec s e).2.2.1, fun bytes now w => (updateGPSData_spec s bytes now w).2.2.1⟩

/-- C6: every `sendLocationEmail` invocation an iteration makes while
`firstGPSLock` is cleared (`firstFixSent` true) is a periodic one; a
periodic invocation is only ever scheduled with `now - lastSentAt` at
least the 5-minute interval (the guard is strictly greater), and at
most one periodic invocation occurs per iteration — including the
iteration in which the first-lock and a periodic send coincide. -/
theorem no_two_sends_within_interval (s : TrackerState) (e : LoopEnv) :
    (∀ c, c ∈ (loopTick s e).2 →
      (c.source = SendSource.periodic →
        LOCATION_SEND_INTERVAL ≤ e.now - s.lastLocationSend) ∧
      (s.firstGPSLock = false → c.source = SendSource.periodic)) ∧
    (((loopTick s e).2.filter fun c =>
        decide (c.source = SendSource.periodic)).length ≤ 1) := by
  obtain ⟨t1, t2, t3, t4⟩ := loopTick_spec s e
  rw [t4]
  constructor
  · intro c hc
    rw [List.mem_append] at hc
    constructor
    · intro hcp
      rcases hc with hA | hB
      · by_cases hfl : (s.firstGPSLock && hasValidDecode e.gpsBytes) = true
        · rw [if_pos hfl] at hA
          simp at hA
          rw [hA] at hcp
          simp at hcp
        · rw [if_neg hfl] at hA
          simp at hA
      · by_cases hcond : LOCATION_SEND_INTERVAL < e.now - s.lastLocationSend ∧
            (s.gpsDataValid || hasValidDecode e.gpsBytes) = true
        · exact Nat.le_of_lt hcond.1
        · rw [if_neg hcond] at hB
          simp at hB
    · intro hff
      rcases hc with hA | hB
      · rw [if_neg (by simp [hff])] at hA
        simp at hA
      · by_cases hcond : LOCATION_SEND_INTERVAL < e.now - s.lastLocationSend ∧
            (s.gpsDataValid || hasValidDecode e.gpsBytes) = true
        · rw [if_pos hcond] at hB
          simp at hB
          simp [hB]
        · rw [if_neg hcond] at hB
          simp at hB
  · rw [List.filter_append, List.length_append]
    have hA : (((if (s.firstGPSLock && hasValidDecode e.gpsBytes) = true
          then [(⟨SendSource.firstLock, sendLocationEmail e.wifiSend true⟩ : SendCall)]
          else []).filter fun c => decide (c.source = SendSource.periodic)).length
        = 0) := by
      split_ifs <;> simp
    have hB : (((if LOCATION_SEND_INTERVAL < e.now - s.lastLocationSend ∧
            (s.gpsDataValid || hasValidDecode e.gpsBytes) = true
          then [(⟨SendSource.periodic, sendLocationEmail e.wifiSend true⟩ : SendCall)]
          else []).filter fun c => decide (c.source = SendSource.periodic)).length
        ≤ 1) := by
      split_ifs <;> simp
    omega

theorem no_two_sends_within_interval_witness :
    ((⟨SendSource.periodic, EmailOutcome.attempted⟩ : SendCall)
        ∈ (loopTick periodicState fireEnv).2) ∧
    (LOCATION_SEND_INTERVAL ≤ fireEnv.now - periodicState.lastLocationSend) :=
  ⟨by decide, ((no_two_sends_within_interval periodicState fireEnv).1
      ⟨SendSource.periodic, EmailOutcome.attempted⟩ (by decide)).1 rfl⟩

/-- C7: `gpsDataValid` is never reset — over any run it is the
disjunction of its initial value with the occurrence of a valid decode
— and a byte-less (stale) `updateGPSData` tick changes nothing but the
GPS LED state and performs no sends, so an arbitrarily long-silent GPS
stream leaves the periodic e-mail path enabled with the last decoded
coordinates. -/
theorem gpsDataValid_never_reset (s : TrackerState) (es : List LoopEnv) :
    ((run s es).gpsDataValid
        = (s.gpsDataValid || es.any fun e => hasValidDecode e.gpsBytes)) ∧
    (∀ (now : Nat) (w : Bool),
      (updateGPSData s [] now w).1
          = (if 5000 < now - s.lastGPSData then setGPSLED s .LED_OFF else s) ∧
      (updateGPSData s [] now w).2 = []) := by
  refine ⟨run_gpsDataValid es s, fun now w => ⟨?_, ?_⟩⟩ <;>
    · simp only [updateGPSData, List.foldl_nil, List.isEmpty_nil, if_true]
      split_ifs <;> rfl

/-- C8: `BlinkFast` rendering is a pure function of `millis()` modulo
400 ms — on exactly when the remainder is below 200 ms — independent of
the shared slow-blink toggle value, and a fast-blink channel rendered
through `updateLEDs` yields exactly that value whether or not the
shared toggle fired this tick. -/
theorem blinkfast_mod_clock (b1 b2 : Bool) (now : Nat) (s : TrackerState)
    (h : s.gpsLEDState = LEDState.LED_BLINK_FAST) :
    (controlLED .LED_BLINK_FAST b1 now = controlLED .LED_BLINK_FAST b2 now) ∧
    (controlLED .LED_BLINK_FAST b1 now = true ↔
      now % (LED_FAST_BLINK_INTERVAL * 2) < LED_FAST_BLINK_INTERVAL) ∧
    ((updateLEDs s now).pins.gps
        = decide (now % (LED_FAST_BLINK_INTERVAL * 2) < LED_FAST_BLINK_INTERVAL)) := by
  refine ⟨rfl, by simp [controlLED], ?_⟩
  simp [updateLEDs, h, controlLED]

theorem blinkfast_mod_clock_witness :
    renderState.gpsLEDState = LEDState.LED_BLINK_FAST ∧
    ((controlLED .LED_BLINK_FAST false 100 = controlLED .LED_BLINK_FAST true 100) ∧
      (controlLED .LED_BLINK_FAST false 100 = true ↔
        100 % (LED_FAST_BLINK_INTERVAL * 2) < LED_FAST_BLINK_INTERVAL) ∧
      ((updateLEDs renderState 100).pins.gps
          = decide (100 % (LED_FAST_BLINK_INTERVAL * 2) < LED_FAST_BLINK_INTERVAL))) :=
  ⟨rfl, blinkfast_mod_clock false true 100 renderState rfl⟩

/-- C9: when the wall clock never passes the sanity threshold within
the polling window, `syncTime` returns false, `setup` continues and
leaves the system indicator in the warning state `LED_BLINK_SLOW` — not
the critical-error state `LED_ON` — and every timestamp rendered while
the clock is below the threshold is the degraded label. -/
theorem time_sync_failure_nonfatal (s : TrackerState) (cw : List Nat)
    (wr geoOk : Bool) (timeAt : Nat → Nat) (ts : Nat)
    (hlt : ∀ t, timeAt t < 8 * 3600 * 2) :
    syncTime timeAt ts = false ∧
    (setup s cw wr geoOk timeAt ts).systemLEDState = LEDState.LED_BLINK_SLOW ∧
    LEDState.LED_BLINK_SLOW ≠ LEDState.LED_ON ∧
    (∀ now, now < 8 * 3600 * 2 → getCurrentTimestamp now = "Time not synchronized") := by
  have hsync : syncTime timeAt ts = false := by
    have h := syncLoop_lt timeAt hlt ts 21 0 ts
    simp only [syncTime, decide_eq_false_iff_not]
    exact Nat.not_le.mpr h
  refine ⟨hsync, ?_, by decide, fun now h => by simp [getCurrentTimestamp, h]⟩
  cases hg : (wr && !geoOk) <;> simp [setup, hsync, hg, setSystemLED]

theorem time_sync_failure_nonfatal_witness :
    (∀ t : Nat, (fun _ : Nat => (0 : Nat)) t < 8 * 3600 * 2) ∧
    (syncTime (fun _ => 0) 0 = false ∧
      (setup initState [] true true (fun _ => 0) 0).systemLEDState
          = LEDState.LED_BLINK_SLOW ∧
      LEDState.LED_BLINK_SLOW ≠ LEDState.LED_ON ∧
      (∀ now, now < 8 * 3600 * 2 →
        getCurrentTimestamp now = "Time not synchronized")) :=
  by
  have hlt : ∀ t : Nat, (fun _ : Nat => (0 : Nat)) t < 8 * 3600 * 2 := by
    intro t
    show (0 : Nat) < 8 * 3600 * 2
    decide
  exact ⟨hlt, time_sync_failure_nonfatal initState [] true true (fun _ => 0) 0 hlt⟩

/-- C10 (spec-modelled): the offline buffer holds at most
`offlineBufferLimit = 50` entries under every push sequence — a burst
of pushes from empty keeps exactly the most recent 50 entries, so
pushing sequence numbers 1..51 retains 2..51 and evicts entry 1 — and a
push into a full buffer evicts exactly the oldest entry to admit the
newest. -/
theorem offline_buffer_bounded (entries : List Nat) :
    (offlinePushAll [] entries
        = entries.drop (entries.length - offlineBufferLimit)) ∧
    ((offlinePushAll [] entries).length ≤ offlineBufferLimit) ∧
    (∀ (buf : List Nat) (x : Nat), buf.length = offlineBufferLimit →
      offlinePush buf x = buf.drop 1 ++ [x]) := by
  have h := offlinePushAll_drop entries [] (by simp)
  simp only [List.nil_append, List.length_nil, Nat.zero_add] at h
  refine ⟨h, ?_, fun buf x hb => by simp [offlinePush, hb]⟩
  rw [h]
  simp only [List.length_drop]
  omega

theorem offline_buffer_bounded_witness :
    ((List.range 50).length = offlineBufferLimit) ∧
    (offlinePush (List.range 50) 50 = (List.range 50).drop 1 ++ [50]) ∧
    ((offlinePushAll [] (List.range 51)).length ≤ offlineBufferLimit) := by
  refine ⟨by decide, ?_, ?_⟩
  · exact (offline_buffer_bounded []).2.2 (List.range 50) 50 (by decide)
  · exact (offline_buffer_bounded (List.range 51)).2.1
